import Mathlib

/-!  Verification of the autosend decision engine and the message lifecycle
orchestration of the lll-api repository against its natural-language
specification.

The Python sources (`app/decisions.py`, `app/jobs.py`,
`app/routes_messages.py`) are shallowly embedded:

* Python dicts become structures of optional fields.  A missing key is
  `Option.none` / `Opt.absent`; for the three numeric org keys that the code
  reads as `s.get(k, default) or 0` (so that a key bound to `None` behaves
  differently from a missing key) we use the three-valued `Opt`.
* Timezone-aware datetimes become integer counts of seconds since an epoch
  placed at a UTC midnight; a pytz timezone is modelled by its fixed UTC
  offset in seconds at the instant of the conversion, which is exactly what
  `astimezone` attaches and what the subsequent `.replace(...)` /
  `.astimezone(pytz.utc)` calls keep using.
* Python floats become rationals.
* The process environment read by `os.getenv` becomes an explicit
  `String → Option String` map passed to the functions that read it.
* Database state touched by the orchestration code becomes an explicit `DB`
  record (messages, contacts, timeline, queue) threaded through the
  functions; queue/scheduler failures raised as exceptions become explicit
  boolean fields of an `ApiEnv` record.
-/

namespace LllApi

/-- A Python `dict` entry for keys where the code distinguishes a missing key
(the `dict.get` default applies) from a key bound to `None` (falsy,
coalesced to zero by `or`). -/
inductive Opt (α : Type) where
  | absent : Opt α
  | null : Opt α
  | val : α → Opt α
deriving DecidableEq

/-- `s.get(k, d) or 0` for a numeric entry, as in
`int(s.get("max_daily_sends", 2) or 0)` and
`float(s.get("cooldown_hours", 22) or 0.0)`: a missing key yields the
default `d`, a `None` value is falsy and yields `0`, and a present number is
returned unchanged (a present `0` is falsy but `0 or 0 = 0`, so returning
the value is numerically faithful). -/
def Opt.numOr {α : Type} : Opt α → α → α → α
  | .absent, d, _ => d
  | .null, _, z => z
  | .val v, _, _ => v

/-- The truthy environment values of `decisions.py` (`_TRUEY`). -/
def _TRUEY : List String := ["1", "true", "yes", "on"]

/-- The process environment (`os.getenv`). -/
abbrev Environ := String → Option String

/-- `s.strip().lower()` computed on the character list of the string
(the builtin `String.trim` and `String.toLower` are compiled primitives the
kernel cannot unfold, so witnesses could not evaluate them). -/
def pyStripLower (s : String) : List Char :=
  ((s.data.dropWhile Char.isWhitespace).reverse.dropWhile
    Char.isWhitespace).reverse.map Char.toLower

/-- `_env_true` from `decisions.py`:
`str(os.getenv(name, default)).strip().lower() in _TRUEY`. -/
def _env_true (env : Environ) (name : String) (default : String := "") : Bool :=
  _TRUEY.any (fun t => t.data == pyStripLower ((env name).getD default))

/-- The `org` dict of the decision context (`ctx["org"]` in
`should_autosend`).  The timezone name is modelled by the fixed UTC offset
(in seconds) that pytz attaches when converting the current instant. -/
structure OrgSettings where
  require_approval_initial : Option Bool := none
  autosend_confidence_threshold : Option ℚ := none
  business_hours_tz : Option Int := none
  business_hours_start : Option Int := none
  business_hours_end : Option Int := none
  cooldown_hours : Opt ℚ := .absent
  max_daily_sends : Opt Int := .absent
  grace_minutes : Opt Int := .absent
  autosend_all_followups : Option Bool := none
deriving DecidableEq

/-- The `contact` dict of the decision context.  A present datetime is
always truthy in Python, hence presence alone (`Option.isSome`) models the
`if last_sent_at` test. -/
structure ContactCtx where
  dnc : Option Bool := none
  last_sent_at : Option Int := none
  sends_today : Option Int := none
deriving DecidableEq

/-- The `drafted` dict of the decision context. -/
structure DraftedCtx where
  confidence : Option ℚ := none
  compliance_ok : Option Bool := none
deriving DecidableEq

/-- The whole `ctx` dict passed to `should_autosend`.  All call sites in the
repository pass `now_utc` explicitly, so it is a required field. -/
structure Ctx where
  org : OrgSettings := {}
  contact : ContactCtx := {}
  drafted : DraftedCtx := {}
  is_initial : Bool := false
  now_utc : Int
deriving DecidableEq

/-- The `(allowed, meta, when_to_send_utc)` triple returned by
`should_autosend`; `meta` only ever carries the `reasons` list. -/
structure Verdict where
  allowed : Bool
  reasons : List String
  whenUtc : Option Int
deriving DecidableEq

/-- The UTC offset pytz attaches for the default timezone name
"America/Los_Angeles" outside daylight-saving time (PST, UTC−8).  Used only
when the `business_hours_tz` key is absent. -/
def LA_STANDARD_OFFSET : Int := -8 * 3600

/-- `datetime.hour` of a local timestamp: the timestamp's epoch sits at a
midnight, so the hour of day is the hour within the current 86400-second
day (`Int.emod` keeps the result in `[0, 86400)` for instants before the
epoch as well). -/
def hourOf (t : Int) : Int := (t.emod 86400).ediv 3600

/-- `now_local.replace(hour=h, minute=0, second=0, microsecond=0)`:
start of the current local day plus `h` hours. -/
def atHour (t : Int) (h : Int) : Int := t - t.emod 86400 + h * 3600

/-- `within_business_hours` from `decisions.py`:
`start_h <= now_local.hour < end_h`. -/
def within_business_hours (now_local : Int) (start_h end_h : Int) : Bool :=
  decide (start_h ≤ hourOf now_local ∧ hourOf now_local < end_h)

/-- `c.get("dnc")` truthiness: the DNC hard-stop guard. -/
def dnc_blocked (ctx : Ctx) : Bool := ctx.contact.dnc.getD false

/-- Guard of the force-followup override:
`(not is_initial) and (_env_true("AUTOSEND_FOLLOWUPS_ALWAYS") or
bool(s.get("autosend_all_followups")))`. -/
def force_followup (env : Environ) (ctx : Ctx) : Bool :=
  !ctx.is_initial &&
    (_env_true env "AUTOSEND_FOLLOWUPS_ALWAYS" ||
      ctx.org.autosend_all_followups.getD false)

/-- Guard of the initial-no-approval override:
`is_initial and (_env_true("AUTOSEND_INITIAL_ALWAYS") or
not bool(s.get("require_approval_initial", True)))`. -/
def force_initial (env : Environ) (ctx : Ctx) : Bool :=
  ctx.is_initial &&
    (_env_true env "AUTOSEND_INITIAL_ALWAYS" ||
      !ctx.org.require_approval_initial.getD true)

/-- `max_daily = int(s.get("max_daily_sends", 2) or 0)`. -/
def max_daily (s : OrgSettings) : Int := s.max_daily_sends.numOr 2 0

/-- Guard of the daily limit:
`int(c.get("sends_today") or 0) >= max_daily > 0`
(a Python chained comparison: both conjuncts must hold). -/
def daily_limit_hit (ctx : Ctx) : Bool :=
  decide (ctx.contact.sends_today.getD 0 ≥ max_daily ctx.org ∧
    0 < max_daily ctx.org)

/-- `cool_hours = float(s.get("cooldown_hours", 22) or 0.0)`. -/
def cool_hours (s : OrgSettings) : ℚ := s.cooldown_hours.numOr 22 0

/-- The comparison `delta.total_seconds() < cool_hours * 3600`, computed by
cross-multiplying with the (positive) denominator of `cool_hours`: the
kernel cannot unfold `Rat.mul`, so witnesses could not evaluate the product
directly.  `lt_hours_in_seconds_iff` below proves it equal to the rational
comparison. -/
def lt_hours_in_seconds (delta : Int) (hours : ℚ) : Bool :=
  decide (delta * hours.den < hours.num * 3600)

/-- Guard of the cooldown window: `last_sent_at` present (datetimes are
always truthy) and `cool_hours > 0` and
`(now_utc - last_sent_at).total_seconds() < cool_hours * 3600`. -/
def cooldown_hit (ctx : Ctx) : Bool :=
  match ctx.contact.last_sent_at with
  | none => false
  | some last =>
    decide (0 < cool_hours ctx.org) &&
      lt_hours_in_seconds (ctx.now_utc - last) (cool_hours ctx.org)

/-- Guard of the compliance gate: blocks only when `compliance_ok` is
explicitly `False` (`m.get("compliance_ok") is False`); absence or `None`
passes. -/
def compliance_blocked (ctx : Ctx) : Bool :=
  ctx.drafted.compliance_ok == some false

/-- `threshold = float(s.get("autosend_confidence_threshold", 0.85))`
(the default 0.85 is written `mkRat 85 100` so the kernel can evaluate it). -/
def threshold (s : OrgSettings) : ℚ :=
  s.autosend_confidence_threshold.getD (mkRat 85 100)

/-- `confidence = float(m.get("confidence", 1.0))`. -/
def confidence (m : DraftedCtx) : ℚ := m.confidence.getD 1

/-- Guard of the confidence threshold: `confidence < threshold`. -/
def confidence_low (ctx : Ctx) : Bool :=
  decide (confidence ctx.drafted < threshold ctx.org)

/-- `tz = pytz.timezone(s.get("business_hours_tz", "America/Los_Angeles"))`,
modelled by the UTC offset attached at the current instant. -/
def tz_offset (s : OrgSettings) : Int :=
  s.business_hours_tz.getD LA_STANDARD_OFFSET

/-- `start_h = int(s.get("business_hours_start", 8))`. -/
def start_h (s : OrgSettings) : Int := s.business_hours_start.getD 8

/-- `end_h = int(s.get("business_hours_end", 18))`. -/
def end_h (s : OrgSettings) : Int := s.business_hours_end.getD 18

/-- `grace_min = int(s.get("grace_minutes", 0) or 0)`. -/
def grace_min (s : OrgSettings) : Int := s.grace_minutes.numOr 0 0

/-- `should_autosend` from `decisions.py`, rule for rule in source order:
DNC hard stop, force-followup override, initial-no-approval override, daily
limit, cooldown, compliance gate, confidence threshold, business-hours
scheduling (`local_now.replace(hour=start_h, ...)`, plus one day when
`local_now.hour >= end_h`, converted back to UTC with the same offset),
and finally the grace period. -/
def should_autosend (env : Environ) (ctx : Ctx) : Verdict :=
  if dnc_blocked ctx then ⟨false, ["contact_on_dnc"], none⟩
  else if force_followup env ctx then ⟨true, ["force_followup_autosend"], none⟩
  else if force_initial env ctx then ⟨true, ["initial_no_approval"], none⟩
  else if daily_limit_hit ctx then ⟨false, ["daily_limit_reached"], none⟩
  else if cooldown_hit ctx then ⟨false, ["cooldown_active"], none⟩
  else if compliance_blocked ctx then ⟨false, ["compliance_failed"], none⟩
  else if confidence_low ctx then ⟨false, ["confidence_below_threshold"], none⟩
  else
    if !within_business_hours (ctx.now_utc + tz_offset ctx.org)
        (start_h ctx.org) (end_h ctx.org) then
      ⟨true, ["scheduled_for_business_hours"],
        some ((atHour (ctx.now_utc + tz_offset ctx.org) (start_h ctx.org) +
          (if end_h ctx.org ≤ hourOf (ctx.now_utc + tz_offset ctx.org)
            then 86400 else 0)) -
          tz_offset ctx.org)⟩
    else if 0 < grace_min ctx.org then
      ⟨true, ["grace_period"], some (ctx.now_utc + grace_min ctx.org * 60)⟩
    else ⟨true, ["immediate_autosend"], none⟩

/-! ## Database and orchestration model (`app/jobs.py`, `app/routes_messages.py`)

Only the columns the verified claims observe are modelled.  Message metadata
merging (`meta = COALESCE(meta,'{}'::jsonb) || patch`) is tracked as a count
of applied patches, enough to observe that a repeated finalize rewrites the
row again. -/

/-- `messages.direction`. -/
inductive Direction where
  | DRAFT
  | OUTBOUND
  | INBOUND
deriving DecidableEq

/-- A row of the `messages` table. -/
structure MessageRow where
  contact_id : Nat
  direction : Direction
  meta_patches : Nat := 0
deriving DecidableEq

/-- A row of the `contacts` table. -/
structure ContactRow where
  sends_today : Int := 0
  last_sent_at : Option Int := none
deriving DecidableEq

/-- A row of the `timeline` table (`contact_id`, `type`, `detail`). -/
structure TimelineEntry where
  contact_id : Nat
  kind : String
  detail : String
deriving DecidableEq

/-- The store plus the job queue: `messages` and `contacts` keyed by id,
the append-only `timeline`, the immediate job queue (`q.enqueue`, holding
message ids) and the delayed jobs (`scheduler.enqueue_at`, holding run-at
instant and message id). -/
structure DB where
  messages : Nat → Option MessageRow
  contacts : Nat → Option ContactRow
  timeline : List TimelineEntry := []
  queue : List Nat := []
  scheduled : List (Int × Nat) := []

/-- `UPDATE messages ... WHERE id = mid` (no-op when the row is absent). -/
def DB.updateMessage (db : DB) (mid : Nat) (f : MessageRow → MessageRow) : DB :=
  { db with messages := fun i => if i = mid then (db.messages i).map f else db.messages i }

/-- `UPDATE contacts ... WHERE id = cid` (no-op when the row is absent). -/
def DB.updateContact (db : DB) (cid : Nat) (f : ContactRow → ContactRow) : DB :=
  { db with contacts := fun i => if i = cid then (db.contacts i).map f else db.contacts i }

/-- `INSERT INTO timeline (contact_id, type, detail) VALUES (...)`. -/
def DB.note (db : DB) (cid : Nat) (kind detail : String) : DB :=
  { db with timeline := db.timeline ++ [⟨cid, kind, detail⟩] }

/-- `q.enqueue("app.jobs.send_message_and_update", mid, channel)`. -/
def DB.enqueue (db : DB) (mid : Nat) : DB :=
  { db with queue := db.queue ++ [mid] }

/-- `scheduler.enqueue_at(when, "app.jobs.send_message_and_update", mid, ...)`. -/
def DB.enqueueAt (db : DB) (whenUtc : Int) (mid : Nat) : DB :=
  { db with scheduled := db.scheduled ++ [(whenUtc, mid)] }

/-- `_finalize_send` from `jobs.py` (lines 223-259): looks the message up,
then runs `UPDATE messages SET direction='OUTBOUND', meta = meta || patch
WHERE id = %s` — note there is no `WHERE direction='DRAFT'` condition —
then `UPDATE contacts SET sends_today = sends_today + 1, last_sent_at =
NOW() WHERE id = %s` and inserts a timeline note, all unconditionally. -/
def _finalize_send (db : DB) (message_id : Nat) (now : Int) : DB :=
  match db.messages message_id with
  | none => db
  | some row =>
    let db := db.updateMessage message_id fun m =>
      { m with direction := .OUTBOUND, meta_patches := m.meta_patches + 1 }
    let db := db.updateContact row.contact_id fun c =>
      { c with sends_today := c.sends_today + 1, last_sent_at := some now }
    db.note row.contact_id "NOTE" "Message sent via worker (threaded)"

/-- Failure switches for the queue / scheduler / inline-send calls that the
Python code wraps in `try`/`except`, plus the `INLINE_APPROVE_SEND` env
toggle of `routes_messages.py`.  A `false` flag models the corresponding
call raising an exception. -/
structure ApiEnv where
  inline_approve_send : Bool := true
  enqueue_ok : Bool := true
  sched_ok : Bool := true
  inline_send_ok : Bool := true
deriving DecidableEq

/-- Result observed by the HTTP caller of `approve_and_send`. -/
inductive ApproveResult where
  | httpError (code : Nat)
  | alreadySent
  | queued
  | inlineSent
deriving DecidableEq

/-- `approve_and_send` from `routes_messages.py` (lines 349-391): load the
message (404 when absent); when its direction is no longer `DRAFT` return
`already_sent=true` touching nothing; otherwise write the timeline note,
commit, and try to enqueue; when enqueuing raises, either fail with 500
(inline fallback disabled) or run `send_message_and_update` inline — its
successful path is collapsed here into the provider send plus
`_finalize_send`, and a raising inline send yields the 500. -/
def approve_and_send (api : ApiEnv) (db : DB) (message_id : Nat) (now : Int) :
    DB × ApproveResult :=
  match db.messages message_id with
  | none => (db, .httpError 404)
  | some row =>
    if row.direction ≠ .DRAFT then (db, .alreadySent)
    else
      let db := db.note row.contact_id "NOTE" "Draft approved by user"
      if api.enqueue_ok then (db.enqueue message_id, .queued)
      else if !api.inline_approve_send then (db, .httpError 500)
      else if api.inline_send_ok then (_finalize_send db message_id now, .inlineSent)
      else (db, .httpError 500)

/-- What a call site's enqueue stage looks like from its caller. -/
inductive DispatchOutcome where
  /-- the delayed job was registered for `whenUtc` -/
  | scheduled (whenUtc : Int)
  /-- the job was enqueued for immediate execution -/
  | enqueued
  /-- an exception escaped to the caller -/
  | raised
  /-- the function returned normally having enqueued nothing -/
  | swallowed
deriving DecidableEq

/-- Enqueue stage of `react_to_inbound` (`jobs.py` lines 885-902), entered
with an allowed verdict: inside an outer `try`, a future `when` first tries
`scheduler.enqueue_at` and falls back to `q.enqueue` when that raises;
otherwise `q.enqueue` directly.  The outer `except Exception: pass` turns
any enqueue failure into a normal return that enqueues nothing. -/
def react_to_inbound_dispatch (api : ApiEnv) (db : DB) (draft_id : Nat)
    (whenUtc : Option Int) (now : Int) : DB × DispatchOutcome :=
  match whenUtc with
  | some w =>
    if now < w then
      if api.sched_ok then (db.enqueueAt w draft_id, .scheduled w)
      else if api.enqueue_ok then (db.enqueue draft_id, .enqueued)
      else (db, .swallowed)
    else if api.enqueue_ok then (db.enqueue draft_id, .enqueued)
    else (db, .swallowed)
  | none =>
    if api.enqueue_ok then (db.enqueue draft_id, .enqueued)
    else (db, .swallowed)

/-- Enqueue stage of `on_client_upload` (`jobs.py` lines 513-527), entered
with an allowed verdict: a future `when` tries `scheduler.enqueue_at` and
returns on success; the `except Exception: pass` falls through to the
unguarded `q.enqueue`, whose exception propagates to the caller. -/
def on_client_upload_dispatch (api : ApiEnv) (db : DB) (draft_id : Nat)
    (whenUtc : Option Int) (now : Int) : DB × DispatchOutcome :=
  match whenUtc with
  | some w =>
    if now < w then
      if api.sched_ok then (db.enqueueAt w draft_id, .scheduled w)
      else if api.enqueue_ok then (db.enqueue draft_id, .enqueued)
      else (db, .raised)
    else if api.enqueue_ok then (db.enqueue draft_id, .enqueued)
    else (db, .raised)
  | none =>
    if api.enqueue_ok then (db.enqueue draft_id, .enqueued)
    else (db, .raised)

/-- Enqueue stage of `draft_initial` (`routes_messages.py` lines 296-315),
entered with an allowed verdict: same shape as `on_client_upload` — the
scheduler attempt is guarded by `try`/`except` that falls through to the
unguarded `q.enqueue`, whose exception propagates (surfacing as an HTTP
error). -/
def draft_initial_dispatch (api : ApiEnv) (db : DB) (draft_id : Nat)
    (whenUtc : Option Int) (now : Int) : DB × DispatchOutcome :=
  match whenUtc with
  | some w =>
    if now < w then
      if api.sched_ok then (db.enqueueAt w draft_id, .scheduled w)
      else if api.enqueue_ok then (db.enqueue draft_id, .enqueued)
      else (db, .raised)
    else if api.enqueue_ok then (db.enqueue draft_id, .enqueued)
    else (db, .raised)
  | none =>
    if api.enqueue_ok then (db.enqueue draft_id, .enqueued)
    else (db, .raised)

/-! ## Concrete instances used by witnesses and counterexamples -/

/-- An empty process environment (neither autosend flag set). -/
def env0 : Environ := fun _ => none

/-- A process environment with `AUTOSEND_FOLLOWUPS_ALWAYS=1` and nothing
else set. -/
def envFollowupsOn : Environ := fun n =>
  if n = "AUTOSEND_FOLLOWUPS_ALWAYS" then some "1" else none

/-- A context whose contact is on the do-not-contact list, with every force
flag turned on in the org settings. -/
def ctxDnc : Ctx :=
  { org := { require_approval_initial := some false
             autosend_all_followups := some true }
    contact := { dnc := some true, sends_today := some 0 }
    drafted := { confidence := some 1 }
    is_initial := false
    now_utc := 0 }

/-- A context with `max_daily_sends = 0`, a huge `sends_today`, no force
path applying, every later rule passing, and a local hour inside business
hours (offset 0, 09:00). -/
def ctxC3 : Ctx :=
  { org := { require_approval_initial := some true
             autosend_confidence_threshold := some (mkRat 85 100)
             business_hours_tz := some 0
             business_hours_start := some 8
             business_hours_end := some 18
             cooldown_hours := .val 22
             max_daily_sends := .val 0
             grace_minutes := .val 0
             autosend_all_followups := some false }
    contact := { dnc := some false, last_sent_at := none, sends_today := some 1000 }
    drafted := { confidence := some 1, compliance_ok := some true }
    is_initial := false
    now_utc := 9 * 3600 }

/-- A follow-up context that hits the daily limit when no force flag is
set: `max_daily_sends = 2`, `sends_today = 5`. -/
def ctxC4 : Ctx :=
  { org := { max_daily_sends := .val 2 }
    contact := { sends_today := some 5 }
    is_initial := false
    now_utc := 0 }

/-- The business-hours example of the spec: America/Los_Angeles (PST,
offset −8 h), window 8–18, now = 03:00 local (= 11:00 UTC on the epoch
day); every earlier rule passes. -/
def ctxC5 : Ctx :=
  { org := { require_approval_initial := some true
             autosend_confidence_threshold := some (mkRat 85 100)
             business_hours_tz := some (-8 * 3600)
             business_hours_start := some 8
             business_hours_end := some 18
             cooldown_hours := .val 22
             max_daily_sends := .val 2
             grace_minutes := .val 5
             autosend_all_followups := some false }
    contact := { dnc := some false, last_sent_at := none, sends_today := some 0 }
    drafted := { confidence := some 1, compliance_ok := some true }
    is_initial := false
    now_utc := 11 * 3600 }

/-- Cooldown boundary context: `cooldown_hours = 22` (79200 s),
`last_sent_at = now - 79200 + 1`, one second short of the cooldown. -/
def ctxC6a : Ctx :=
  { org := { require_approval_initial := some true
             business_hours_tz := some 0
             cooldown_hours := .val 22
             max_daily_sends := .val 5 }
    contact := { dnc := some false, last_sent_at := some (200000 - 79200 + 1)
                 sends_today := some 0 }
    is_initial := false
    now_utc := 200000 }

/-- Cooldown boundary context: `last_sent_at = now - 79200 - 1`, one second
past the cooldown. -/
def ctxC6b : Ctx :=
  { org := { require_approval_initial := some true
             business_hours_tz := some 0
             cooldown_hours := .val 22
             max_daily_sends := .val 5 }
    contact := { dnc := some false, last_sent_at := some (200000 - 79200 - 1)
                 sends_today := some 0 }
    is_initial := false
    now_utc := 200000 }

/-- A store holding one `DRAFT` message (id 1) for contact 7 with
`sends_today = 0`: the duplicate-trigger scenario for the finalizer. -/
def dbC1 : DB :=
  { messages := fun i => if i = 1 then some { contact_id := 7, direction := .DRAFT } else none
    contacts := fun i => if i = 7 then some { sends_today := 0 } else none }

/-- A store holding one message (id 3) already flipped to `OUTBOUND` for
contact 7: the approve-after-send race. -/
def dbC7 : DB :=
  { messages := fun i => if i = 3 then some { contact_id := 7, direction := .OUTBOUND } else none
    contacts := fun i => if i = 7 then some { sends_today := 1 } else none }

/-- An empty store. -/
def db0 : DB := { messages := fun _ => none, contacts := fun _ => none }

/-- A process environment that sets only an unrelated variable; it agrees
with `env0` on the two autosend flags. -/
def envSenderOnly : Environ := fun n =>
  if n = "SENDER_EMAIL" then some "x@example.com" else none

/-- A context whose draft carries no confidence value, with a threshold of
0.85 and every other rule passing. -/
def ctxC10 : Ctx :=
  { org := { autosend_confidence_threshold := some (mkRat 85 100)
             business_hours_tz := some 0
             max_daily_sends := .val 5 }
    contact := { sends_today := some 0 }
    drafted := { confidence := none }
    is_initial := false
    now_utc := 9 * 3600 }

/-! ## Helper lemmas -/

/-- The cross-multiplied cooldown comparison agrees with the rational one:
`delta < hours * 3600` over ℚ. -/
theorem lt_hours_in_seconds_iff (delta : Int) (q : ℚ) :
    lt_hours_in_seconds delta q = true ↔ (delta : ℚ) < q * 3600 := by
  have hden : (0 : ℚ) < (q.den : ℚ) := by exact_mod_cast q.pos
  have hmul : q * 3600 = ((q.num * 3600 : ℤ) : ℚ) / (q.den : ℚ) := by
    conv_lhs => rw [← Rat.num_div_den q]
    push_cast
    ring
  unfold lt_hours_in_seconds
  rw [decide_eq_true_eq, hmul, lt_div_iff₀ hden]
  exact_mod_cast Iff.rfl

/-! ## Claim theorems -/

/-- Claim C1 (code bug): the claim states that calling the delivery
finalizer twice on the same draft id yields exactly one DRAFT→OUTBOUND
transition and exactly one increment of `sends_today`, the second call
being a no-op guarded by `UPDATE ... WHERE direction='DRAFT'`.  The
`UPDATE` in `_finalize_send` carries no such guard: on the store `dbC1`
(one DRAFT message, contact with `sends_today = 0`) the first call flips
the direction and increments the counter to 1, but the second call
increments the counter again to 2 and merges a second meta patch instead
of being a no-op. -/
theorem C1_finalize_send_not_idempotent :
    ((_finalize_send dbC1 1 1000).messages 1).map MessageRow.direction =
      some .OUTBOUND ∧
    ((_finalize_send dbC1 1 1000).contacts 7).map ContactRow.sends_today =
      some 1 ∧
    ((_finalize_send (_finalize_send dbC1 1 1000) 1 2000).contacts 7).map
      ContactRow.sends_today = some 2 ∧
    ((_finalize_send (_finalize_send dbC1 1 1000) 1 2000).messages 1).map
      MessageRow.meta_patches = some 2 :=
  ⟨rfl, rfl, rfl, rfl⟩

/-- Claim C2: whenever the contact is on the do-not-contact list,
`should_autosend` returns `allowed = false` with the single reason
`"contact_on_dnc"`, for every environment (including both force flags) and
every other field value. -/
theorem C2_dnc_hard_stop (env : Environ) (ctx : Ctx)
    (h : ctx.contact.dnc = some true) :
    should_autosend env ctx = ⟨false, ["contact_on_dnc"], none⟩ := by
  unfold should_autosend
  simp [dnc_blocked, h]

/-- Witness for C2: a DNC contact with every force flag set (org flag and
`AUTOSEND_FOLLOWUPS_ALWAYS=1`) is still denied with `"contact_on_dnc"`. -/
theorem C2_dnc_hard_stop_witness :
    should_autosend envFollowupsOn ctxDnc =
      ⟨false, ["contact_on_dnc"], none⟩ :=
  C2_dnc_hard_stop envFollowupsOn ctxDnc rfl

/-- Claim C7: `approve_and_send` on a message that is no longer `DRAFT`
returns `already_sent = true` as a no-op success — the store is returned
unchanged (no audit note, no queue entry) and no error is raised. -/
theorem C7_approve_idempotent (api : ApiEnv) (db : DB) (message_id : Nat)
    (now : Int) (row : MessageRow)
    (hrow : db.messages message_id = some row)
    (hdir : row.direction ≠ .DRAFT) :
    approve_and_send api db message_id now = (db, .alreadySent) := by
  unfold approve_and_send
  rw [hrow]
  simp [hdir]

/-- Witness for C7: approving message 3 of `dbC7`, already `OUTBOUND`,
returns the untouched store with `already_sent`. -/
theorem C7_approve_idempotent_witness :
    approve_and_send {} dbC7 3 0 = (dbC7, .alreadySent) :=
  C7_approve_idempotent {} dbC7 3 0
    { contact_id := 7, direction := .OUTBOUND } rfl (by decide)

/-- Claim C8 (counterexample): in `react_to_inbound`, when the scheduled
path and the immediate enqueue both fail for an allowed verdict with a
future `when`, the function returns normally with nothing enqueued, no
state change and no surfaced failure — the outer `except Exception: pass`
silently swallows it, contradicting the claim that such a failure is
always surfaced to the caller or audit log. -/
theorem C8_react_dispatch_swallows :
    react_to_inbound_dispatch { sched_ok := false, enqueue_ok := false }
      db0 5 (some 100) 0 = (db0, .swallowed) :=
  rfl

/-- Claim C8 (amended): for an allowed verdict with a future `when`, every
call site falls back to immediate enqueue when the scheduler raises; when
the immediate enqueue also fails, `on_client_upload` and `draft_initial`
propagate the exception to the caller, but `react_to_inbound` swallows it
and returns normally, enqueuing nothing (the draft stays `DRAFT` since no
dispatch stage touches message state). -/
theorem C8_dispatch_fallback_amended (api : ApiEnv) (db : DB)
    (draft_id : Nat) (w now : Int) (hfuture : now < w)
    (hsched : api.sched_ok = false) :
    (api.enqueue_ok = true →
      react_to_inbound_dispatch api db draft_id (some w) now =
        (db.enqueue draft_id, .enqueued) ∧
      on_client_upload_dispatch api db draft_id (some w) now =
        (db.enqueue draft_id, .enqueued) ∧
      draft_initial_dispatch api db draft_id (some w) now =
        (db.enqueue draft_id, .enqueued)) ∧
    (api.enqueue_ok = false →
      on_client_upload_dispatch api db draft_id (some w) now = (db, .raised) ∧
      draft_initial_dispatch api db draft_id (some w) now = (db, .raised) ∧
      react_to_inbound_dispatch api db draft_id (some w) now =
        (db, .swallowed)) := by
  unfold react_to_inbound_dispatch on_client_upload_dispatch
    draft_initial_dispatch
  constructor <;> intro h <;> simp [hfuture, hsched, h]

/-- Witness for C8 (amended): with both queue paths failing, the two
job-site dispatch stages raise while the inbound-reaction stage swallows;
with only the scheduler failing, all three fall back to immediate
enqueue. -/
theorem C8_dispatch_fallback_amended_witness :
    (on_client_upload_dispatch { sched_ok := false, enqueue_ok := false }
      db0 5 (some 100) 0 = (db0, .raised)) ∧
    (draft_initial_dispatch { sched_ok := false, enqueue_ok := false }
      db0 5 (some 100) 0 = (db0, .raised)) ∧
    (react_to_inbound_dispatch { sched_ok := false }
      db0 5 (some 100) 0 = (db0.enqueue 5, .enqueued)) := by
  have h1 := C8_dispatch_fallback_amended
    { sched_ok := false, enqueue_ok := false } db0 5 100 0 (by decide) rfl
  have h2 := C8_dispatch_fallback_amended
    { sched_ok := false } db0 5 100 0 (by decide) rfl
  exact ⟨(h1.2 rfl).1, (h1.2 rfl).2.1, (h2.1 rfl).1⟩

/-- Claim C3 (counterexample): on `ctxC3` the org has `max_daily_sends = 0`
and `sends_today = 1000`, the contact is not on DNC and no force path
applies, yet the verdict is `allowed = true` with `"immediate_autosend"` —
not the denial with `"daily_limit_reached"` the claim requires.  The
guard `sends_today >= max_daily > 0` never fires for `max_daily = 0`: zero
disables the daily limit instead of denying every send. -/
theorem C3_daily_limit_zero_counterexample :
    ctxC3.org.max_daily_sends = Opt.val 0 ∧
    dnc_blocked ctxC3 = false ∧
    force_followup env0 ctxC3 = false ∧
    force_initial env0 ctxC3 = false ∧
    should_autosend env0 ctxC3 = ⟨true, ["immediate_autosend"], none⟩ := by
  refine ⟨rfl, rfl, ?_, rfl, ?_⟩ <;> decide

/-- Claim C3 (amended): a policy with `max_daily_sends = 0` disables the
daily-limit rule — no evaluation ever denies with `"daily_limit_reached"`
(the guard requires `max_daily > 0`); it does not deny every non-forced
send. -/
theorem C3_daily_limit_zero_amended (env : Environ) (ctx : Ctx)
    (h : ctx.org.max_daily_sends = Opt.val 0) :
    "daily_limit_reached" ∉ (should_autosend env ctx).reasons := by
  have hd : daily_limit_hit ctx = false := by
    unfold daily_limit_hit max_daily
    rw [h]
    simp [Opt.numOr]
  unfold should_autosend
  repeat' split
  all_goals simp_all

/-- Witness for C3 (amended): the `ctxC3` evaluation carries no
`"daily_limit_reached"` reason. -/
theorem C3_daily_limit_zero_amended_witness :
    "daily_limit_reached" ∉ (should_autosend env0 ctxC3).reasons :=
  C3_daily_limit_zero_amended env0 ctxC3 rfl

/-- Claim C4 (counterexample): two runs of `should_autosend` with the
identical `ctxC4` argument differ when the ambient process environment
differs: with `AUTOSEND_FOLLOWUPS_ALWAYS=1` the follow-up is force-allowed,
with an empty environment the very same context is denied by the daily
limit.  The function is therefore not independent of ambient process
state, contrary to the claim. -/
theorem C4_env_dependence_counterexample :
    should_autosend envFollowupsOn ctxC4 =
      ⟨true, ["force_followup_autosend"], none⟩ ∧
    should_autosend env0 ctxC4 = ⟨false, ["daily_limit_reached"], none⟩ ∧
    should_autosend envFollowupsOn ctxC4 ≠ should_autosend env0 ctxC4 := by
  refine ⟨?_, ?_, ?_⟩ <;> decide

/-- Claim C4 (amended): `should_autosend` has no side effects in the
embedding and its only ambient inputs are the two environment flags
`AUTOSEND_FOLLOWUPS_ALWAYS` and `AUTOSEND_INITIAL_ALWAYS`: any two
environments agreeing on those two variables produce identical verdicts on
every context. -/
theorem C4_env_determinism_amended (env1 env2 : Environ) (ctx : Ctx)
    (h1 : env1 "AUTOSEND_FOLLOWUPS_ALWAYS" = env2 "AUTOSEND_FOLLOWUPS_ALWAYS")
    (h2 : env1 "AUTOSEND_INITIAL_ALWAYS" = env2 "AUTOSEND_INITIAL_ALWAYS") :
    should_autosend env1 ctx = should_autosend env2 ctx := by
  unfold should_autosend force_followup force_initial _env_true
  rw [h1, h2]

/-- Witness for C4 (amended): an environment setting only `SENDER_EMAIL`
agrees with the empty environment on the two autosend flags, and the
verdicts coincide. -/
theorem C4_env_determinism_amended_witness :
    should_autosend envSenderOnly ctxC4 = should_autosend env0 ctxC4 :=
  C4_env_determinism_amended envSenderOnly env0 ctxC4 (by decide) (by decide)

/-- Claim C9: every evaluation path of `should_autosend` returns exactly
one reason code — the `reasons` list always has length 1, for allow and
deny verdicts alike. -/
theorem C9_single_reason (env : Environ) (ctx : Ctx) :
    (should_autosend env ctx).reasons.length = 1 := by
  unfold should_autosend
  repeat' split
  all_goals rfl

/-- Claim C10: a draft without a confidence value is given the default
confidence 1.0, so whenever the policy threshold is at most 1 the verdict
never carries `"confidence_below_threshold"`. -/
theorem C10_absent_confidence (env : Environ) (ctx : Ctx)
    (hconf : ctx.drafted.confidence = none)
    (hthr : threshold ctx.org ≤ 1) :
    "confidence_below_threshold" ∉ (should_autosend env ctx).reasons := by
  have hlow : confidence_low ctx = false := by
    unfold confidence_low confidence
    rw [hconf]
    simp only [Option.getD_none, decide_eq_false_iff_not]
    exact not_lt.mpr hthr
  unfold should_autosend
  repeat' split
  all_goals simp_all

/-- Witness for C10: a draft with absent confidence against a 0.85
threshold is not denied for confidence. -/
theorem C10_absent_confidence_witness :
    "confidence_below_threshold" ∉ (should_autosend env0 ctxC10).reasons :=
  C10_absent_confidence env0 ctxC10 rfl (by decide)

/-- Claim C5: when every earlier rule passes and the local hour (nowUtc
shifted by the policy timezone offset) lies outside `[start, end)`,
`should_autosend` allows with the single reason
`"scheduled_for_business_hours"` and schedules for `start:00` of the same
local day, rolled to the next calendar day when the local hour is at or
past `end`, converted back to UTC with the same offset. -/
theorem C5_business_hours_schedule (env : Environ) (ctx : Ctx)
    (h1 : dnc_blocked ctx = false)
    (h2 : force_followup env ctx = false)
    (h3 : force_initial env ctx = false)
    (h4 : daily_limit_hit ctx = false)
    (h5 : cooldown_hit ctx = false)
    (h6 : compliance_blocked ctx = false)
    (h7 : confidence_low ctx = false)
    (h8 : within_business_hours (ctx.now_utc + tz_offset ctx.org)
      (start_h ctx.org) (end_h ctx.org) = false) :
    should_autosend env ctx =
      ⟨true, ["scheduled_for_business_hours"],
        some ((atHour (ctx.now_utc + tz_offset ctx.org) (start_h ctx.org) +
          (if end_h ctx.org ≤ hourOf (ctx.now_utc + tz_offset ctx.org)
            then 86400 else 0)) - tz_offset ctx.org)⟩ := by
  unfold should_autosend
  simp [h1, h2, h3, h4, h5, h6, h7, h8]

/-- Witness for C5, the concrete example of the spec: timezone
America/Los_Angeles (PST, offset −8 h), window 8–18, now = 03:00 local on
the epoch day (= 11:00 UTC); the verdict schedules for today 08:00 local =
16:00 UTC. -/
theorem C5_business_hours_schedule_witness :
    should_autosend env0 ctxC5 =
      ⟨true, ["scheduled_for_business_hours"], some (16 * 3600)⟩ := by
  have h := C5_business_hours_schedule env0 ctxC5 (by decide) (by decide)
    (by decide) (by decide) (by decide) (by decide) (by decide) (by decide)
  rw [h]
  decide

/-- Claim C6: with `last_sent_at` present, `cooldown_hours > 0` and every
earlier rule passing, the verdict is the `"cooldown_active"` denial exactly
when `now - last_sent_at < cooldown_hours * 3600` seconds — a strict
inequality, so one second inside the window denies and one second past it
does not. -/
theorem C6_cooldown_strict (env : Environ) (ctx : Ctx) (last : Int)
    (hlast : ctx.contact.last_sent_at = some last)
    (hcool : 0 < cool_hours ctx.org)
    (h1 : dnc_blocked ctx = false)
    (h2 : force_followup env ctx = false)
    (h3 : force_initial env ctx = false)
    (h4 : daily_limit_hit ctx = false) :
    (should_autosend env ctx = ⟨false, ["cooldown_active"], none⟩ ↔
      ((ctx.now_utc - last : Int) : ℚ) < cool_hours ctx.org * 3600) := by
  have hch : cooldown_hit ctx =
      lt_hours_in_seconds (ctx.now_utc - last) (cool_hours ctx.org) := by
    unfold cooldown_hit
    rw [hlast]
    simp [hcool]
  rw [← lt_hours_in_seconds_iff]
  unfold should_autosend
  rw [h1, h2, h3, h4, hch]
  by_cases hc :
    lt_hours_in_seconds (ctx.now_utc - last) (cool_hours ctx.org) = true
  · rw [hc]
    simp
  · have hc' :
        lt_hours_in_seconds (ctx.now_utc - last) (cool_hours ctx.org) = false := by
      simpa using hc
    rw [hc']
    constructor
    · intro heq
      exfalso
      rw [if_neg (by simp)] at heq
      repeat' split at heq
      all_goals simp_all
    · intro hfalse
      exact absurd hfalse (by simp)

/-- Witness for C6, the boundary pair of the spec with
`cooldown_hours = 22` (79200 s) and `now = 200000`:
`last_sent_at = now - 79200 + 1` is denied with `"cooldown_active"`, while
`last_sent_at = now - 79200 - 1` is not. -/
theorem C6_cooldown_strict_witness :
    should_autosend env0 ctxC6a = ⟨false, ["cooldown_active"], none⟩ ∧
    should_autosend env0 ctxC6b ≠ ⟨false, ["cooldown_active"], none⟩ := by
  constructor
  · exact (C6_cooldown_strict env0 ctxC6a (200000 - 79200 + 1) rfl (by decide)
      (by decide) (by decide) (by decide) (by decide)).mpr
      ((lt_hours_in_seconds_iff (ctxC6a.now_utc - (200000 - 79200 + 1))
        (cool_hours ctxC6a.org)).mp (by decide))
  · intro heq
    have hlt := (C6_cooldown_strict env0 ctxC6b (200000 - 79200 - 1) rfl
      (by decide) (by decide) (by decide) (by decide) (by decide)).mp heq
    have hb := (lt_hours_in_seconds_iff (ctxC6b.now_utc - (200000 - 79200 - 1))
      (cool_hours ctxC6b.org)).mpr hlt
    exact absurd hb (by decide)

end LllApi
